import Mathlib

/-!
Verification of the failure-classification and retry behavior of
`AxiosHttpClient` (src/src/axios-http-client.ts).

The embedding below mirrors the source:
  - `Json` models JavaScript values appearing as response bodies;
  - `AxiosErr` models the shape of an axios error object that the
    `catch` block in `send` receives (`response`, `message`, `code`);
  - `RaisedError` models the typed errors the classifier can raise;
  - `rethrowError` is a direct translation of the private method
    `AxiosHttpClient.rethrowError` (lines 134-187 of the source);
  - `mkAxiosHttpClient` models the constructor (lines 47-67);
  - `runAttempts` / `send` model the dispatch loop, with the retry
    decision of the external `axios-retry` package modelled from the
    specification (see the doc comments of the spec-modelled defs).
-/

set_option autoImplicit false

namespace AxiosHttpClient

/-- A JavaScript/JSON value, as far as the classifier inspects bodies. -/
inductive Json where
  | null
  | str (s : String)
  | num (n : Int)
  | boolean (b : Bool)
  | obj (fields : List (String × Json))
  | arr (elems : List Json)

/-- First-match lookup in an association list (models both JS object
property access and `ReadonlyMap.get`). -/
def assocGet {α : Type} : List (String × α) → String → Option α
  | [], _ => none
  | (k, v) :: rest, key => if k = key then some v else assocGet rest key

/-- Property access `body[k]` on a JS value: defined only on objects. -/
def Json.getField : Json → String → Option Json
  | .obj fields, k => assocGet fields k
  | _, _ => none

/-- The source expression `typeof x === 'string' ? x : ''` applied to the
field `k` of `body` (used for the 403/404 branches and envelope fields). -/
def Json.strField (body : Json) (k : String) : String :=
  match body.getField k with
  | some (.str s) => s
  | _ => ""

/-- Prefix test on character lists (helper for `strStartsWith`). -/
def charsStart : List Char → List Char → Bool
  | [], _ => true
  | _ :: _, [] => false
  | c :: cs, d :: ds => c = d && charsStart cs ds

/-- The JS `String.prototype.startsWith` test, as used by the source in
`axiosError.message?.startsWith('timeout')`. -/
def strStartsWith (s pre : String) : Bool :=
  charsStart pre.data s.data

/-- An HTTP response attached to an axios error (`error.response`). -/
structure AxiosResponse where
  status : Nat
  data : Json

/-- The fields of an axios error object that `rethrowError` reads. -/
structure AxiosErr where
  response : Option AxiosResponse
  message : Option String
  code : Option String

/-- A typed error value as raised by the client. The caller-supplied
error constructors of the source are modelled as functions into this
type; `constructed tag msg` stands for an instance of a caller class
identified by `tag`. `axiosPassthrough` is the original axios error
re-raised unchanged (the opaque passthrough branch). -/
inductive RaisedError where
  | timeoutError (msg : String)
  | networkError (msg : String)
  | unauthenticatedError (msg : String)
  | endpointNotFoundError (msg : String)
  | illegalArgumentError (msg : String)
  | error (msg : String)
  | constructed (tag : String) (msg : String)
  | axiosPassthrough (e : AxiosErr)

/-- The `message` property of a raised error object. -/
def RaisedError.message : RaisedError → String
  | .timeoutError m => m
  | .networkError m => m
  | .unauthenticatedError m => m
  | .endpointNotFoundError m => m
  | .illegalArgumentError m => m
  | .error m => m
  | .constructed _ m => m
  | .axiosPassthrough e => e.message.getD ""

/-- A caller-supplied error constructor (`ErrorConstructor` of the
dev-kit): applied to a message it yields an error instance. -/
def ErrorConstructor := String → RaisedError

/-- The private `ErrorConstructors` interface of the source (both fields
may be absent or null, collapsed to `Option`). -/
structure ErrorConstructors where
  serviceErrorConstructor : Option ErrorConstructor
  errorNameToConstructor : Option (List (String × ErrorConstructor))

/-- The mutable error-resolution state of a client instance: the fields
`errorHandler` and `errorConstructors` of `AxiosHttpClient`. -/
structure ClientState where
  errorHandler : Option (Nat → Json → RaisedError)
  errorConstructors : Option ErrorConstructors

/-- A `configure` argument: either a custom http error handler or an
error-constructor mapping (the two variants of `Configuration` that the
source inspects). -/
inductive Configuration where
  | httpErrorHandler (handler : Nat → Json → RaisedError)
  | errorConstructor (errorNameToConstructor : Option (List (String × ErrorConstructor)))
      (serviceErrorConstructor : Option ErrorConstructor)

/-- `AxiosHttpClient.configure` (lines 69-78 of the source). -/
def configure (st : ClientState) : Configuration → ClientState
  | .httpErrorHandler handler => { st with errorHandler := some handler }
  | .errorConstructor m sec =>
      { st with errorConstructors := some { errorNameToConstructor := m, serviceErrorConstructor := sec } }

/-- Modelled from the spec: `isUltrasaErrorBody` comes from the external
`@ultrasa/dev-kit` package, which is not part of this repository. Per
the spec (§6, error envelope wire format), a first-party error envelope
is a JSON object carrying at least a string `name` and a string
`message` field; any other shape is not treated as an envelope. -/
def isUltrasaErrorBody (body : Json) : Bool :=
  match body.getField "name", body.getField "message" with
  | some (.str _), some (.str _) => true
  | _, _ => false

/-- The error caught by the `catch` block of `send`: either an axios
error (`error.isAxiosError` true) or a plain error object (for example
the `IllegalArgumentError` thrown by the method check, or the cancel
object produced by an aborted request). -/
inductive Caught where
  | axios (e : AxiosErr)
  | plain (e : RaisedError)

/-- Direct translation of `AxiosHttpClient.rethrowError`
(lines 134-187 of the source). Every branch of the source throws; the
embedding returns the thrown error value. -/
def rethrowError (st : ClientState) : Caught → RaisedError
  | .axios axiosError =>
    let body : Json :=
      match axiosError.response with
      | some r => r.data
      | none => Json.null
    match axiosError.response with
    | none =>
      -- network issue, no connection, aborted, timeout, etc.
      (match axiosError.message with
      | some m =>
        if strStartsWith m "timeout" then RaisedError.timeoutError m
        else RaisedError.networkError m
      | none =>
        -- `error.message ?? error.code`; a JS Error built from
        -- undefined has the empty message.
        RaisedError.networkError (axiosError.code.getD ""))
    | some response =>
      match st.errorHandler with
      | some errorHandler => errorHandler response.status body
      | none =>
        if isUltrasaErrorBody body then
          let name := body.strField "name"
          let message := body.strField "message"
          let ctor : Option ErrorConstructor :=
            match st.errorConstructors with
            | some ecs =>
              match ecs.errorNameToConstructor with
              | some m => assocGet m name
              | none => none
            | none => none
          match ctor with
          | some c => c message
          | none =>
            match st.errorConstructors with
            | some ecs =>
              match ecs.serviceErrorConstructor with
              | some sec => sec (name ++ ": " ++ message)
              | none => RaisedError.error (name ++ ": " ++ message)
            | none => RaisedError.error (name ++ ": " ++ message)
        else if response.status = 403 then
          RaisedError.unauthenticatedError (body.strField "message")
        else if response.status = 404 then
          RaisedError.endpointNotFoundError (body.strField "message")
        else
          RaisedError.axiosPassthrough axiosError
  | .plain e =>
    if e.message = "canceled" then RaisedError.networkError e.message
    else e

/-! ## Dispatcher and retry model

`send` validates the method, hands the request to the axios instance
(one transport attempt per try) and, on failure, calls `rethrowError`.
The retry loop itself lives inside the external `axios-retry` package,
which the constructor installs with `retries = maximumRetry` and its
default retry condition; that condition is modelled from the spec. -/

/-- The raw outcome of one transport attempt: either axios resolves with
a success response, or it rejects with a caught error. -/
inductive Outcome where
  | success (status : Nat) (body : Json)
  | failure (err : Caught)

/-- Modelled from the spec: the idempotent methods of the default retry
condition of the external `axios-retry` package (GET, HEAD, OPTIONS, PUT
or DELETE), quoted in the source comment at line 63. -/
def isIdempotent (method : String) : Bool :=
  method = "GET" || method = "HEAD" || method = "OPTIONS" ||
    method = "PUT" || method = "DELETE"

/-- Modelled from the spec: the outcome half of the default retry
condition of the external `axios-retry` package (§4.2): retry on a
network-class transport failure or on a 5xx response; never on a
success, a timeout, a cancellation, or a non-axios error. -/
def retryableOutcome : Outcome → Bool
  | .success _ _ => false
  | .failure (.axios e) =>
    match e.response with
    | none =>
      match e.message with
      | some m => !(strStartsWith m "timeout" || m = "canceled")
      | none => true
    | some r => 500 ≤ r.status && r.status < 600
  | .failure (.plain _) => false

/-- Modelled from the spec: the retry decision applied by `axios-retry`
after the attempt with index `i` (0-based): stop once `retries` retries
have been used, retry only idempotent methods and only retryable
outcomes (§4.2). -/
def shouldRetry (method : String) (retries : Nat) (i : Nat) (o : Outcome) : Bool :=
  decide (i < retries) && isIdempotent method && retryableOutcome o

/-- The attempt loop: runs attempt `i` against the transport and retries
while the decision function allows. `fuel` bounds the remaining retries
(the caller passes the configured retry count, which the decision
function never exceeds). Returns the total number of attempts performed
together with the terminal outcome. -/
def runAttempts (transport : Nat → Outcome) (retry : Nat → Outcome → Bool) :
    Nat → Nat → Nat × Outcome
  | i, 0 => (i + 1, transport i)
  | i, fuel + 1 =>
    let o := transport i
    if retry i o then runAttempts transport retry (i + 1) fuel
    else (i + 1, o)

/-- An interceptor handle (the source value is a function on the axios
request config; the claims only need identity, so it is kept opaque). -/
def Interceptor := String

/-- The observable configuration of the axios instance held in
`this.httpClient`: what `axios.create` received, which request
interceptors were registered, and how many retries `axiosRetry`
installed (`0` when `axiosRetry` was never called). -/
structure AxiosInstanceConfig where
  baseURL : Option String
  timeout : Option Int
  requestInterceptors : List Interceptor
  retries : Nat

/-- The `interceptors` prop: absent, a single interceptor, or an array
(the source normalizes with `Array.isArray`). -/
inductive InterceptorsProp where
  | missing
  | single (i : Interceptor)
  | array (is : List Interceptor)

/-- `AxiosHttpClientProps` (lines 20-33 of the source). The `instance`
prop is named `axiosInstance` here because `instance` is reserved in
Lean. -/
structure AxiosHttpClientProps where
  axiosInstance : Option AxiosInstanceConfig
  baseUrl : Option String
  timeout : Option Int
  interceptors : InterceptorsProp
  maximumRetry : Option Int

/-- The interceptor registration of the constructor: `if
(props.interceptors)` skips only the absent case (an empty array is
truthy in JS and registers nothing). -/
def normalizeInterceptors : InterceptorsProp → List Interceptor
  | .missing => []
  | .single i => [i]
  | .array is => is

/-- The `AxiosHttpClient` constructor (lines 47-67 of the source): a
provided instance is used as-is; otherwise a fresh instance is created
from `baseUrl`/`timeout`, interceptors are registered, and `axiosRetry`
is installed only when `maximumRetry` is a number greater than 0. -/
def mkAxiosHttpClient (props : AxiosHttpClientProps) : AxiosInstanceConfig :=
  match props.axiosInstance with
  | some inst => inst
  | none =>
    { baseURL := props.baseUrl
      timeout := props.timeout
      requestInterceptors := normalizeInterceptors props.interceptors
      retries :=
        match props.maximumRetry with
        | some n => if 0 < n then n.toNat else 0
        | none => 0 }

/-- The method check of `send` (lines 94-115): exactly these five method
strings reach the transport; anything else throws
`IllegalArgumentError` before any attempt. -/
def supportedMethod (method : String) : Bool :=
  method = "GET" || method = "DELETE" || method = "POST" ||
    method = "PUT" || method = "PATCH"

/-- The result of `send`: the resolved body, or the raised error. -/
inductive SendResult where
  | ok (body : Json)
  | raised (e : RaisedError)

/-- `AxiosHttpClient.send` (lines 80-120 of the source), with the
attempt loop of the installed `axios-retry` wrapper made explicit. The
first component counts the transport attempts performed. An unsupported
method throws `IllegalArgumentError` inside the `try` block, so that
error passes through `rethrowError` exactly as in the source. -/
def send (client : AxiosInstanceConfig) (st : ClientState) (method : String)
    (transport : Nat → Outcome) : Nat × SendResult :=
  if supportedMethod method then
    let r := runAttempts transport (shouldRetry method client.retries) 0 client.retries
    match r.2 with
    | .success _ body => (r.1, .ok body)
    | .failure c => (r.1, .raised (rethrowError st c))
  else
    (0, .raised (rethrowError st
      (.plain (.illegalArgumentError ("Invalid method " ++ method ++ ".")))))

/-! ## Spec-side definitions

Used to compare the classifier against the wording of the spec for the
envelope-handling refinement claim. -/

/-- The error-name-to-constructor mapping that is configured on a state,
in the sense of the spec: present only when an error-constructor
configuration was supplied and its map field is non-null. -/
def configuredNameMap (st : ClientState) : Option (List (String × ErrorConstructor)) :=
  match st.errorConstructors with
  | some ecs => ecs.errorNameToConstructor
  | none => none

/-- The fallback generic-service-error constructor that is configured on
a state, in the sense of the spec. -/
def configuredServiceCtor (st : ClientState) : Option ErrorConstructor :=
  match st.errorConstructors with
  | some ecs => ecs.serviceErrorConstructor
  | none => none

/-- The three-step chain of §4.3 steps 5a-5c of the spec, written from
the words of the spec: if a configured name mapping has an entry for
`name`, raise that constructor with `message`; else if a fallback
generic-service-error constructor is configured, raise it with
`"<name>: <message>"`; else raise a plain generic error with
`"<name>: <message>"`. -/
def specEnvelopeChain (st : ClientState) (name message : String) : RaisedError :=
  match (configuredNameMap st).bind (fun l => assocGet l name) with
  | some c => c message
  | none =>
    match configuredServiceCtor st with
    | some sec => sec (name ++ ": " ++ message)
    | none => RaisedError.error (name ++ ": " ++ message)

/-! ## Concrete fixtures (used by witnesses and counterexamples) -/

/-- A client state with nothing configured. -/
def stEmpty : ClientState := { errorHandler := none, errorConstructors := none }

/-- The envelope body of the repository test suite:
`{name: "SystemError", message: "mockErrorMessage"}`. -/
def envBody : Json := .obj [("name", .str "SystemError"), ("message", .str "mockErrorMessage")]

/-- An error-constructor configuration mapping "SystemError" to the
`NetworkError` constructor, with a caller class as fallback (mirrors the
test `send_getFirstPartyServiceWithKnownError_shouldThrowDeserializedError`). -/
def mappedCtors : ErrorConstructors :=
  { serviceErrorConstructor := some (fun m => .constructed "MockServiceError" m)
    errorNameToConstructor := some [("SystemError", fun m => .networkError m)] }

/-- An axios timeout error: no response, message starting with
"timeout". -/
def eTimeout : AxiosErr :=
  { response := none, message := some "timeout of 1000ms exceeded", code := some "ECONNABORTED" }

/-- A 403 response from an API gateway with a non-envelope body. -/
def e403 : AxiosErr :=
  { response := some { status := 403, data := .obj [("message", .str "Missing Authentication Token")] }
    message := none, code := none }

/-- A 401 response with a plain-text body (no envelope). -/
def e401 : AxiosErr :=
  { response := some { status := 401, data := .str "plain text" }
    message := some "Request failed with status code 401", code := none }

/-- A 500 response with a null body. -/
def e500 : AxiosErr :=
  { response := some { status := 500, data := .null }
    message := some "Request failed with status code 500", code := none }

/-- A transport that fails with a 500 response on every attempt. -/
def always500 : Nat → Outcome := fun _ => .failure (.axios e500)

/-- A transport whose first attempt is aborted by the caller
(cancellation object with message "canceled", not an axios error). -/
def alwaysCanceled : Nat → Outcome := fun _ => .failure (.plain (.error "canceled"))

/-- A plain axios instance configuration with no retries installed. -/
def client0 : AxiosInstanceConfig :=
  { baseURL := none, timeout := none, requestInterceptors := [], retries := 0 }

/-- An axios instance configuration with 2 retries installed. -/
def client2 : AxiosInstanceConfig := { client0 with retries := 2 }

/-- Props supplying an explicit axios instance together with every other
prop set, to exhibit that the latter are ignored. -/
def propsWithInstance : AxiosHttpClientProps :=
  { axiosInstance := some client2
    baseUrl := some "http://localhost:23294"
    timeout := some 5000
    interceptors := .single "authInterceptor"
    maximumRetry := some 7 }

/-- Props with no instance and `maximumRetry = 0`. -/
def propsRetry0 : AxiosHttpClientProps :=
  { axiosInstance := none, baseUrl := none, timeout := none
    interceptors := .missing, maximumRetry := some 0 }

/-! ## Helper lemmas -/

theorem isUltrasaErrorBody_true {body : Json} {n m : String}
    (hn : body.getField "name" = some (.str n))
    (hm : body.getField "message" = some (.str m)) :
    isUltrasaErrorBody body = true := by
  unfold isUltrasaErrorBody
  rw [hn, hm]

theorem strField_eq {body : Json} {k s : String}
    (h : body.getField k = some (.str s)) : body.strField k = s := by
  unfold Json.strField
  rw [h]

theorem retryableOutcome_500 {e : AxiosErr} {b : Json}
    (h : e.response = some { status := 500, data := b }) :
    retryableOutcome (.failure (.axios e)) = true := by
  simp only [retryableOutcome, h]
  rfl

/-- If the retry decision allows every attempt in range, the attempt
loop uses all its fuel and ends on the last attempt. -/
theorem runAttempts_all_retry (transport : Nat → Outcome) (retry : Nat → Outcome → Bool) :
    ∀ (fuel i : Nat), (∀ j, j < i + fuel → retry j (transport j) = true) →
      runAttempts transport retry i fuel = (i + fuel + 1, transport (i + fuel)) := by
  intro fuel
  induction fuel with
  | zero => intro i _; simp [runAttempts]
  | succ fuel ih =>
    intro i h
    have hi : retry i (transport i) = true := h i (by omega)
    simp only [runAttempts, hi, if_true]
    have harg : i + (fuel + 1) = i + 1 + fuel := by omega
    rw [harg]
    exact ih (i + 1) (fun j hj => h j (by omega))

/-- A first attempt whose outcome the retry condition rejects is
terminal: `send` performs exactly one attempt and raises the
classification of that outcome. -/
theorem send_first_failure_not_retryable (client : AxiosInstanceConfig) (st : ClientState)
    (method : String) (transport : Nat → Outcome) (c : Caught)
    (hs : supportedMethod method = true)
    (ht : transport 0 = .failure c)
    (hnr : retryableOutcome (.failure c) = false) :
    send client st method transport = (1, .raised (rethrowError st c)) := by
  unfold send
  rw [hs]
  cases hr : client.retries with
  | zero => simp [runAttempts, ht]
  | succ k =>
    simp only [runAttempts, ht, shouldRetry, hnr, Bool.and_false, if_false]
    rfl

/-! ## Claims -/

/-- C1: For every received application-error response whose body is a
first-party error envelope (string `name` and `message` fields) and with
no custom error handler configured, classification follows the
three-step chain of the spec regardless of status code: a configured
name-mapping entry wins with the body message; else a configured
fallback service-error constructor is raised with "<name>: <message>";
else a plain generic error with "<name>: <message>". -/
theorem rethrow_envelope_chain_matches_spec
    (ecs : Option ErrorConstructors) (r : AxiosResponse) (emsg ecode : Option String)
    (n m : String)
    (hn : r.data.getField "name" = some (.str n))
    (hm : r.data.getField "message" = some (.str m)) :
    rethrowError { errorHandler := none, errorConstructors := ecs }
      (.axios { response := some r, message := emsg, code := ecode }) =
      specEnvelopeChain { errorHandler := none, errorConstructors := ecs } n m := by
  have hb := isUltrasaErrorBody_true hn hm
  simp only [rethrowError, hb, if_true, strField_eq hn, strField_eq hm,
    specEnvelopeChain, configuredNameMap, configuredServiceCtor]
  cases ecs with
  | none => rfl
  | some e0 =>
    obtain ⟨sec, mp⟩ := e0
    cases mp with
    | none => cases sec <;> rfl
    | some l =>
      cases hga : assocGet l n with
      | none => simp only [Option.some_bind, hga]
      | some c => simp only [Option.some_bind, hga]

/-- C1 witness: the spec test case, status 404, envelope
`{name: "SystemError", message: "mockErrorMessage"}`, mapping containing
`SystemError -> NetworkError`: the mapped constructor is raised with the
body message. -/
theorem rethrow_envelope_chain_matches_spec_witness :
    rethrowError { errorHandler := none, errorConstructors := some mappedCtors }
      (.axios { response := some { status := 404, data := envBody },
                message := some "Request failed with status code 404", code := none }) =
      .networkError "mockErrorMessage" :=
  Eq.trans
    (rethrow_envelope_chain_matches_spec (some mappedCtors)
      { status := 404, data := envBody }
      (some "Request failed with status code 404") none
      "SystemError" "mockErrorMessage" rfl rfl)
    rfl

/-- C2: For every transport failure with no response whose message marks
it as a timeout, the classifier raises TimeoutError carrying the
transport message verbatim, and `send` surfaces exactly that error. -/
theorem send_timeout_raises_timeout_error
    (client : AxiosInstanceConfig) (st : ClientState) (method : String)
    (transport : Nat → Outcome) (emsg : String) (ecode : Option String)
    (hm : strStartsWith emsg "timeout" = true)
    (hs : supportedMethod method = true)
    (ht : transport 0 = .failure (.axios { response := none, message := some emsg, code := ecode })) :
    rethrowError st (.axios { response := none, message := some emsg, code := ecode }) =
      .timeoutError emsg ∧
    (send client st method transport).2 = .raised (.timeoutError emsg) := by
  have hre : rethrowError st
      (.axios { response := none, message := some emsg, code := ecode }) =
      .timeoutError emsg := by
    simp only [rethrowError, hm, if_true]
  refine ⟨hre, ?_⟩
  have hnr : retryableOutcome
      (.failure (.axios { response := none, message := some emsg, code := ecode })) = false := by
    simp only [retryableOutcome, hm, Bool.true_or, Bool.not_true]
  rw [send_first_failure_not_retryable client st method transport _ hs ht hnr, hre]

/-- C2 witness: a concrete axios timeout failure surfaces as
TimeoutError with the message "timeout of 1000ms exceeded". -/
theorem send_timeout_raises_timeout_error_witness :
    rethrowError stEmpty (.axios eTimeout) =
      .timeoutError "timeout of 1000ms exceeded" ∧
    (send client2 stEmpty "GET" (fun _ => .failure (.axios eTimeout))).2 =
      .raised (.timeoutError "timeout of 1000ms exceeded") :=
  send_timeout_raises_timeout_error client2 stEmpty "GET" _
    "timeout of 1000ms exceeded" (some "ECONNABORTED") rfl rfl rfl

/-- C4: For every cancellation outcome (a non-axios error object whose
message is "canceled", as produced by an AbortController abort), `send`
raises NetworkError with message exactly "canceled" after a single
attempt, whatever retry count is installed. -/
theorem send_cancellation_networkError_no_retry
    (client : AxiosInstanceConfig) (st : ClientState) (method : String)
    (transport : Nat → Outcome) (p : RaisedError)
    (hs : supportedMethod method = true)
    (hp : p.message = "canceled")
    (ht : transport 0 = .failure (.plain p)) :
    send client st method transport = (1, .raised (.networkError "canceled")) := by
  have hnr : retryableOutcome (.failure (.plain p)) = false := rfl
  rw [send_first_failure_not_retryable client st method transport _ hs ht hnr]
  simp [rethrowError, hp]

/-- C4 witness: with 2 retries installed, a cancellation on the first
attempt ends the dispatch at one attempt with NetworkError "canceled". -/
theorem send_cancellation_networkError_no_retry_witness :
    send client2 stEmpty "GET" alwaysCanceled = (1, .raised (.networkError "canceled")) :=
  send_cancellation_networkError_no_retry client2 stEmpty "GET" alwaysCanceled
    (.error "canceled") rfl rfl rfl

/-- C3: For every application-error outcome, a configured custom error
handler is invoked with (status, raw body) and its result is what is
raised, bypassing envelope and 403/404 handling; for every
transport-level failure (no response received, or a non-axios error such
as a cancellation) the handler and the constructor configuration are
never consulted, and the built-in transport classification (TimeoutError
or NetworkError) applies. -/
theorem custom_handler_precedence
    (eh : Option (Nat → Json → RaisedError)) (ecs : Option ErrorConstructors)
    (r : AxiosResponse) (emsg ecode : Option String)
    (h : Nat → Json → RaisedError) (p : RaisedError) :
    rethrowError { errorHandler := some h, errorConstructors := ecs }
      (.axios { response := some r, message := emsg, code := ecode }) = h r.status r.data ∧
    rethrowError { errorHandler := eh, errorConstructors := ecs }
      (.axios { response := none, message := emsg, code := ecode }) =
      rethrowError { errorHandler := none, errorConstructors := none }
        (.axios { response := none, message := emsg, code := ecode }) ∧
    (∃ m, rethrowError { errorHandler := eh, errorConstructors := ecs }
        (.axios { response := none, message := emsg, code := ecode }) = .timeoutError m ∨
      rethrowError { errorHandler := eh, errorConstructors := ecs }
        (.axios { response := none, message := emsg, code := ecode }) = .networkError m) ∧
    rethrowError { errorHandler := eh, errorConstructors := ecs } (.plain p) =
      rethrowError { errorHandler := none, errorConstructors := none } (.plain p) := by
  refine ⟨rfl, rfl, ?_, rfl⟩
  cases emsg with
  | none => exact ⟨ecode.getD "", Or.inr rfl⟩
  | some m0 =>
    by_cases hts : strStartsWith m0 "timeout" = true
    · exact ⟨m0, Or.inl (by simp [rethrowError, hts])⟩
    · exact ⟨m0, Or.inr (by simp [rethrowError, hts])⟩

/-- C5: For every application-error response that is not a first-party
envelope, with no custom handler configured: status 403 raises
UnauthenticatedError and status 404 raises EndpointNotFoundError, in
both cases with the body message field when it is a string and the empty
string otherwise. -/
theorem rethrow_403_404_builtin
    (ecs : Option ErrorConstructors) (r : AxiosResponse) (emsg ecode : Option String)
    (henv : isUltrasaErrorBody r.data = false) :
    (r.status = 403 →
      rethrowError { errorHandler := none, errorConstructors := ecs }
        (.axios { response := some r, message := emsg, code := ecode }) =
        .unauthenticatedError (r.data.strField "message")) ∧
    (r.status = 404 →
      rethrowError { errorHandler := none, errorConstructors := ecs }
        (.axios { response := some r, message := emsg, code := ecode }) =
        .endpointNotFoundError (r.data.strField "message")) ∧
    (∀ s, r.data.getField "message" = some (.str s) → r.data.strField "message" = s) ∧
    ((∀ s, r.data.getField "message" ≠ some (.str s)) → r.data.strField "message" = "") := by
  refine ⟨?_, ?_, fun s hs => strField_eq hs, ?_⟩
  · intro h403
    simp [rethrowError, henv, h403]
  · intro h404
    simp [rethrowError, henv, h404]
  · intro hns
    unfold Json.strField
    cases hgf : r.data.getField "message" with
    | none => rfl
    | some v =>
      cases v with
      | str s => exact absurd hgf (hns s)
      | null => rfl
      | num k => rfl
      | boolean b => rfl
      | obj fs => rfl
      | arr xs => rfl

/-- C5 witness: a 403 API-gateway response with body
`{message: "Missing Authentication Token"}` raises
UnauthenticatedError with that message. -/
theorem rethrow_403_404_builtin_witness :
    rethrowError stEmpty (.axios e403) =
      .unauthenticatedError "Missing Authentication Token" :=
  Eq.trans
    ((rethrow_403_404_builtin none
      { status := 403, data := .obj [("message", .str "Missing Authentication Token")] }
      none none rfl).1 rfl)
    rfl

/-- C6: For every application-error response with no custom handler, a
non-envelope body, and a status that is neither 403 nor 404, the
original axios error is re-raised unchanged, exposing the raw status and
raw body to the caller. -/
theorem rethrow_opaque_passthrough
    (ecs : Option ErrorConstructors) (r : AxiosResponse) (emsg ecode : Option String)
    (henv : isUltrasaErrorBody r.data = false)
    (h3 : r.status ≠ 403) (h4 : r.status ≠ 404) :
    rethrowError { errorHandler := none, errorConstructors := ecs }
      (.axios { response := some r, message := emsg, code := ecode }) =
      .axiosPassthrough { response := some r, message := emsg, code := ecode } := by
  simp [rethrowError, henv, h3, h4]

/-- C6 witness: a plain-text 401 response with nothing configured is
re-raised as the original axios error, status 401 and body intact. -/
theorem rethrow_opaque_passthrough_witness :
    rethrowError stEmpty (.axios e401) = .axiosPassthrough e401 :=
  rethrow_opaque_passthrough none
    { status := 401, data := .str "plain text" }
    (some "Request failed with status code 401") none rfl
    (by decide) (by decide)

/-- C7: The error classifier never swallows a failure: when the
terminal transport outcome is a failure, `send` raises exactly the
classification of that failure; an unsupported method also raises; and a
normal return can only come from a successful terminal outcome. -/
theorem classifier_never_swallows
    (client : AxiosInstanceConfig) (st : ClientState) (method : String)
    (transport : Nat → Outcome) :
    (supportedMethod method = true → ∀ c,
      (runAttempts transport (shouldRetry method client.retries) 0 client.retries).2 = .failure c →
      (send client st method transport).2 = .raised (rethrowError st c)) ∧
    (supportedMethod method = false →
      (send client st method transport).2 =
        .raised (rethrowError st
          (.plain (.illegalArgumentError ("Invalid method " ++ method ++ "."))))) ∧
    (∀ b, (send client st method transport).2 = .ok b →
      supportedMethod method = true ∧
      ∃ s, (runAttempts transport (shouldRetry method client.retries) 0 client.retries).2 =
        .success s b) := by
  refine ⟨?_, ?_, ?_⟩
  · intro hs c hc
    simp [send, hs, hc]
  · intro hns
    simp [send, hns]
  · intro b hb
    by_cases hs : supportedMethod method = true
    · refine ⟨hs, ?_⟩
      revert hb
      simp only [send, hs, if_true]
      cases hterm : (runAttempts transport (shouldRetry method client.retries) 0 client.retries).2 with
      | success s body =>
        intro hb
        simp only at hb
        exact ⟨s, by rw [SendResult.ok.inj hb]⟩
      | failure c =>
        intro hb
        simp at hb
    · exfalso
      revert hb
      simp [send, hs]

/-- C7 witness: a terminal 500 failure surfaces as a raised error. -/
theorem classifier_never_swallows_witness :
    (send client0 stEmpty "GET" always500).2 =
      .raised (rethrowError stEmpty (.axios e500)) :=
  (classifier_never_swallows client0 stEmpty "GET" always500).1 rfl (.axios e500) rfl

/-- C8 counterexample: HEAD is an idempotent method, yet with maximum
retries 2 and a transport always returning 500-status responses, `send`
performs 0 transport attempts (raising IllegalArgumentError), not 2 + 1
as the claim states for every idempotent method. -/
theorem send_head_idempotent_no_attempt :
    isIdempotent "HEAD" = true ∧ client2.retries = 2 ∧
    (∀ j, always500 j = .failure (.axios e500)) ∧
    send client2 stEmpty "HEAD" always500 =
      (0, .raised (.illegalArgumentError "Invalid method HEAD.")) ∧
    (send client2 stEmpty "HEAD" always500).1 ≠ 2 + 1 :=
  ⟨rfl, rfl, fun _ => rfl, rfl, by decide⟩

/-- C8 (amended): For every idempotent method that `send` supports
(GET, PUT, DELETE), with maximum retries N and a transport producing a
500-status response on every attempt, `send` performs exactly N + 1
attempts and the raised error is the classification of the last
attempt. -/
theorem send_idempotent_supported_500_attempts
    (N : Nat) (client : AxiosInstanceConfig) (st : ClientState) (method : String)
    (transport : Nat → Outcome) (errs : Nat → AxiosErr) (bodies : Nat → Json)
    (hcl : client.retries = N)
    (hi : isIdempotent method = true)
    (hs : supportedMethod method = true)
    (ht : ∀ j, transport j = .failure (.axios (errs j)))
    (hr : ∀ j, (errs j).response = some { status := 500, data := bodies j }) :
    send client st method transport =
      (N + 1, .raised (rethrowError st (.axios (errs N)))) := by
  subst hcl
  have hall : ∀ j, j < 0 + client.retries →
      shouldRetry method client.retries j (transport j) = true := by
    intro j hj
    have hro : retryableOutcome (transport j) = true := by
      rw [ht j]; exact retryableOutcome_500 (hr j)
    simp only [shouldRetry, hro, hi, Bool.and_true]
    simpa using by omega
  have hrun := runAttempts_all_retry transport (shouldRetry method client.retries)
    client.retries 0 hall
  simp only [send, hs, if_true, hrun, ht, Nat.zero_add]

/-- C8 witness: GET with 2 retries against an always-500 transport makes
exactly 3 attempts and surfaces the opaque passthrough of the last
attempt. -/
theorem send_idempotent_supported_500_attempts_witness :
    send client2 stEmpty "GET" always500 = (3, .raised (.axiosPassthrough e500)) :=
  Eq.trans
    (send_idempotent_supported_500_attempts 2 client2 stEmpty "GET" always500
      (fun _ => e500) (fun _ => .null) rfl rfl rfl (fun _ => rfl) (fun _ => rfl))
    rfl

/-- C9: For every request whose method is not one of GET, POST, PUT,
PATCH, DELETE, `send` raises IllegalArgumentError with the message of
the source, performs no transport attempt, and does not retry. -/
theorem send_invalid_method_illegalArgument
    (client : AxiosInstanceConfig) (st : ClientState) (method : String)
    (transport : Nat → Outcome)
    (h : supportedMethod method = false) :
    send client st method transport =
      (0, .raised (.illegalArgumentError ("Invalid method " ++ method ++ "."))) := by
  have hne : ("Invalid method " ++ method ++ ".") ≠ "canceled" := by
    intro hEq
    have hlen := congrArg String.length hEq
    rw [String.length_append, String.length_append] at hlen
    have h1 : ("Invalid method " : String).length = 15 := rfl
    have h2 : ("." : String).length = 1 := rfl
    have h3 : ("canceled" : String).length = 8 := rfl
    omega
  simp [send, h, rethrowError, RaisedError.message, hne]

/-- C9 witness: a TRACE request raises IllegalArgumentError with no
attempt made. -/
theorem send_invalid_method_illegalArgument_witness :
    send client2 stEmpty "TRACE" always500 =
      (0, .raised (.illegalArgumentError "Invalid method TRACE.")) :=
  send_invalid_method_illegalArgument client2 stEmpty "TRACE" always500 rfl

/-- C10: A constructed client with an explicit axios instance uses that
instance as-is, ignoring baseUrl, timeout, interceptors, and
maximumRetry (in particular no retry wrapper is installed); without an
instance, an absent or zero maximumRetry installs no retries; and a
client with no retries installed performs exactly one transport attempt
on every dispatched send. -/
theorem constructor_instance_and_no_retry
    (props : AxiosHttpClientProps) (inst : AxiosInstanceConfig)
    (client : AxiosInstanceConfig) (st : ClientState) (method : String)
    (transport : Nat → Outcome) :
    (props.axiosInstance = some inst → mkAxiosHttpClient props = inst) ∧
    (props.axiosInstance = none →
      (props.maximumRetry = none ∨ props.maximumRetry = some 0) →
      (mkAxiosHttpClient props).retries = 0) ∧
    (client.retries = 0 → supportedMethod method = true →
      (send client st method transport).1 = 1) := by
  refine ⟨?_, ?_, ?_⟩
  · intro hi
    simp [mkAxiosHttpClient, hi]
  · intro hi hr
    rcases hr with hr | hr <;> simp [mkAxiosHttpClient, hi, hr]
  · intro h0 hs
    simp only [send, hs, if_true, h0]
    cases htr : transport 0 <;> simp [runAttempts, htr]

/-- C10 witness: a client built from an explicit instance equals that
instance; maximumRetry 0 installs no retries; and with no retries a GET
against an always-500 transport performs exactly one attempt. -/
theorem constructor_instance_and_no_retry_witness :
    mkAxiosHttpClient propsWithInstance = client2 ∧
    (mkAxiosHttpClient propsRetry0).retries = 0 ∧
    (send client0 stEmpty "GET" always500).1 = 1 :=
  ⟨(constructor_instance_and_no_retry propsWithInstance client2 client0 stEmpty
      "GET" always500).1 rfl,
   (constructor_instance_and_no_retry propsRetry0 client2 client0 stEmpty
      "GET" always500).2.1 rfl (Or.inr rfl),
   (constructor_instance_and_no_retry propsRetry0 client2 client0 stEmpty
      "GET" always500).2.2 rfl rfl⟩

end AxiosHttpClient
